import Mathlib

/-!
Verification of the few-shot prompting core of the BLESS repository
(`utils/prompting.py`): exemplar selection (`RandomExampleSelector`),
prompt assembly (`prepare_prompted_inputs`, backed by the langchain
function `FewShotPromptTemplate.format`), and output postprocessing
(`postprocess_model_outputs`).

Python strings are modelled as Lean `String`/`List Char`; the Python
string operations used by the source (`str.replace`, `str.split`,
`str.strip`, `' '.join`, and the three regular expressions
`\n`, `\d:`, `\s+Label:\s+`) are given explicit executable models below.
Exceptions are modelled with `Except String`; the process-wide
pseudo-random generator is modelled as an explicit stream
`g : Nat -> Nat` consumed at an explicit position.
-/

namespace BLESS

/-- Characters stripped by Python `str.strip()` (ASCII whitespace). -/
def isPySpace (c : Char) : Bool :=
  c = ' ' || c = '\t' || c = '\n' || c = '\x0d' || c = '\x0b' || c = '\x0c'

/-- Model of Python `str.strip()`: drop leading and trailing whitespace. -/
def pyStrip (s : String) : String :=
  ⟨((s.data.dropWhile isPySpace).reverse.dropWhile isPySpace).reverse⟩

/-- Scanner for Python `str.replace(old, new)`: replaces every
non-overlapping occurrence of `old`, scanning left to right, and never
rescans replacement text.  `fuel` bounds the recursion; every step
consumes at least one character, so `fuel = length + 1` never runs
out (fuel keeps the recursion structural, so terms reduce in the
kernel). -/
def pyReplaceAux (old new : List Char) : Nat → List Char → List Char
  | 0, s => s
  | _ + 1, [] => []
  | fuel + 1, c :: rest =>
    if old.isPrefixOf (c :: rest) && !old.isEmpty then
      new ++ pyReplaceAux old new fuel (rest.drop (old.length - 1))
    else
      c :: pyReplaceAux old new fuel rest

/-- Model of Python `str.replace(old, new)`.  For `old = ""` Python
interleaves `new` between all characters; every call site in the source
that can reach `old = ""` also has `new = ""`, where the Python behaviour
is the identity, as modelled here. -/
def pyReplace (s old new : String) : String :=
  if old.isEmpty then s
  else ⟨pyReplaceAux old.data new.data (s.length + 1) s.data⟩

/-- Scanner for Python `str.split(sep)` with a non-empty separator:
splits at every non-overlapping occurrence, keeping empty segments.
`fuel` as in `pyReplaceAux`. -/
def pySplitAux (sep : List Char) : Nat → List Char → List Char → List (List Char)
  | 0, s, acc => [acc.reverse ++ s]
  | _ + 1, [], acc => [acc.reverse]
  | fuel + 1, c :: rest, acc =>
    if sep.isPrefixOf (c :: rest) && !sep.isEmpty then
      acc.reverse :: pySplitAux sep fuel (rest.drop (sep.length - 1)) []
    else
      pySplitAux sep fuel rest (c :: acc)

/-- Model of Python `str.split(sep)` (Python raises on an empty
separator; the source only ever passes the non-empty
`example_separator`, default `r'\n\n'`). -/
def pySplit (s sep : String) : List String :=
  (pySplitAux sep.data (s.length + 1) s.data []).map fun l => ⟨l⟩

/-- Model of Python `sep.join(xs)`. -/
def pyJoin (sep : String) : List String → String
  | [] => ""
  | [x] => x
  | x :: y :: rest => x ++ sep ++ pyJoin sep (y :: rest)

/-- Scanner for `re.split(r'\d:', s)`: split at every occurrence of an
ASCII digit immediately followed by a colon.  `fuel` as in
`pyReplaceAux`. -/
def splitDigitColonAux : Nat → List Char → List Char → List (List Char)
  | 0, acc, s => [acc.reverse ++ s]
  | fuel + 1, acc, c1 :: c2 :: rest =>
    if c1.isDigit && c2 = ':' then
      acc.reverse :: splitDigitColonAux fuel [] rest
    else
      splitDigitColonAux fuel (c1 :: acc) (c2 :: rest)
  | _ + 1, acc, [c] => [(c :: acc).reverse]
  | _ + 1, acc, [] => [acc.reverse]

/-- Model of `re.split(r'\d:', s)`. -/
def splitDigitColon (s : String) : List String :=
  (splitDigitColonAux (s.length + 1) [] s.data).map fun l => ⟨l⟩

/-- Scanner for `re.sub(r'\s+' ++ label ++ r'\s+', '', s)` (the source
uses the literal labels `Simple:` and `Complex:`).  At each position, a
match consumes a maximal non-empty whitespace run, the literal label,
and a further maximal non-empty whitespace run; matching is
left-to-right and non-overlapping, exactly as `re.sub` scans.  `fuel`
bounds the recursion; every step consumes at least one character, so
`fuel = length + 1` never runs out. -/
def subLabelAux (label : List Char) : Nat → List Char → List Char
  | 0, s => s
  | _ + 1, [] => []
  | fuel + 1, c :: rest =>
    if isPySpace c then
      let s1 := (c :: rest).dropWhile isPySpace
      if label.isPrefixOf s1 then
        let s2 := s1.drop label.length
        if !(s2.takeWhile isPySpace).isEmpty then
          subLabelAux label fuel (s2.dropWhile isPySpace)
        else c :: subLabelAux label fuel rest
      else c :: subLabelAux label fuel rest
    else c :: subLabelAux label fuel rest

/-- Model of `re.sub(r'\s+Label:\s+', '', s)` for a literal label. -/
def subLabel (label : String) (s : String) : String :=
  ⟨subLabelAux label.data (s.length + 1) s.data⟩

/-! ## Data model

An exemplar is a record with a source field (`src_key = "complex"`) and a
target field (`tgt_key = "simple"`) that is either a single reference
string or an ordered list of reference strings; the Python code reads
these through dictionary keys, modelled here as structure fields. -/

/-- The target field of an exemplar: a single string or a list. -/
inductive Target where
  | single (s : String)
  | multi (refs : List String)
deriving DecidableEq, Repr

/-- A pool exemplar (`{"complex": ..., "simple": ...}`). -/
structure Exemplar where
  complex : String
  simple : Target
deriving DecidableEq, Repr

/-- A flattened exemplar: both fields reduced to single strings. -/
structure FlatExample where
  complex : String
  simple : String
deriving DecidableEq, Repr

/-! ## random.sample -/

/-- Selection-without-replacement core of Python
`random.sample(pop, k)`: draw `k` elements, deleting each chosen element
from the remaining population.  The pseudo-random stream `g` is consumed
at positions `pos, pos+1, ...`, each draw reduced modulo the current
population size. -/
def sampleAux (g : Nat → Nat) : Nat → List α → Nat → List α
  | _, _, 0 => []
  | pos, pop, k + 1 =>
    if h : 0 < pop.length then
      let i : Fin pop.length := ⟨g pos % pop.length, Nat.mod_lt _ h⟩
      pop.get i :: sampleAux g (pos + 1) (pop.eraseIdx i.val) k
    else []

/-- Model of Python `random.sample(pop, k)`: raises
`ValueError: Sample larger than population or is negative` when
`k > |pop|`, otherwise draws `k` elements without replacement. -/
def pySample (g : Nat → Nat) (pos : Nat) (pop : List α) (k : Nat) :
    Except String (List α) :=
  if k ≤ pop.length then Except.ok (sampleAux g pos pop k)
  else Except.error "ValueError: Sample larger than population or is negative"

/-! ## RandomExampleSelector -/

/-- `RandomExampleSelector.__init__` state. -/
structure RandomExampleSelector where
  examples : List Exemplar
  few_shot_n : Nat
  n_refs : Nat

/-- `RandomExampleSelector.add_example`: append-only pool update. -/
def add_example (sel : RandomExampleSelector) (ex : Exemplar) :
    RandomExampleSelector :=
  { sel with examples := sel.examples ++ [ex] }

/-- One iteration of `RandomExampleSelector.flatten_references`: copy the
source field; for a list target, `random.sample` `min(n_refs, len)`
references, enumerate them as `f"{i}: {ref}"` when `n_refs > 1`, and
join with a single space; for a string target, copy it verbatim (the
`n_refs > 1` warning in that branch has no effect on the value).
Returns the flattened exemplar and the advanced stream position. -/
def flatten_one (g : Nat → Nat) (pos : Nat) (n_refs : Nat) (ex : Exemplar) :
    FlatExample × Nat :=
  match ex.simple with
  | Target.multi refs =>
    let k := min n_refs refs.length
    let simple_references := sampleAux g pos refs k
    let simple_references :=
      if 1 < n_refs then
        simple_references.enum.map fun p => toString p.1 ++ ": " ++ p.2
      else simple_references
    ({ complex := ex.complex, simple := pyJoin " " simple_references }, pos + k)
  | Target.single s => ({ complex := ex.complex, simple := s }, pos)

/-- `RandomExampleSelector.flatten_references` over a list of exemplars,
threading the stream position. -/
def flatten_references (g : Nat → Nat) (pos : Nat) (examples : List Exemplar)
    (n_refs : Nat) : List FlatExample × Nat :=
  match examples with
  | [] => ([], pos)
  | ex :: rest =>
    let p := flatten_one g pos n_refs ex
    let q := flatten_references g p.2 rest n_refs
    (p.1 :: q.1, q.2)

/-- `RandomExampleSelector.select_examples`: `random.sample` the pool
down to `few_shot_n` exemplars, then flatten them.  The
`input_variables` argument is accepted (langchain passes the live input
variables) but, as in the source, never read. -/
def select_examples (sel : RandomExampleSelector) (g : Nat → Nat) (pos : Nat)
    (input_variables : List (String × String)) :
    Except String (List FlatExample × Nat) :=
  match pySample g pos sel.examples sel.few_shot_n with
  | Except.error e => Except.error e
  | Except.ok examples =>
    Except.ok (flatten_references g (pos + sel.few_shot_n) examples sel.n_refs)

/-! ## Prompt assembly

`prepare_prompted_inputs` builds a langchain `FewShotPromptTemplate` per
input and formats it.  The relevant langchain semantics (2023-era
`langchain/prompts/few_shot.py`) are: a root validator rejecting
truthy-`examples`-plus-selector and rejecting both-`None`;
`_get_examples` preferring a non-`None` `examples` list over the
selector; `format` rendering each example through `example_prompt`,
joining `[prefix] ++ example_strings ++ [suffix]` with
`example_separator` after dropping falsy (empty) pieces, and finally
substituting the `input` variable into the joined template. -/

/-- `construct_example_template`: a `PromptTemplate` over the two slots
`complex` (source field) and `simple` (target field). -/
structure ExamplePromptTemplate where
  template : String

/-- langchain `PromptTemplate.format(**example)`: substitute the
`\x7bcomplex\x7d` and `\x7bsimple\x7d` slots of the template. -/
def format_example (t : ExamplePromptTemplate) (ex : FlatExample) : String :=
  pyReplace (pyReplace t.template "\x7bcomplex\x7d" ex.complex)
    "\x7bsimple\x7d" ex.simple

/-- langchain `FewShotPromptTemplate` construction + `format(input=...)`,
with the validators run at construction modelled first.  Returns the
formatted prompt and the advanced pseudo-random position (the selector,
when used, consumes random draws). -/
def few_shot_format (examples : Option (List FlatExample))
    (example_selector : Option RandomExampleSelector)
    (example_prompt : ExamplePromptTemplate)
    (pfx suffix example_separator : String)
    (g : Nat → Nat) (pos : Nat) (input : String) :
    Except String (String × Nat) :=
  let examples_truthy := match examples with
    | some l => !l.isEmpty
    | none => false
  if examples_truthy && example_selector.isSome then
    Except.error
      "ValueError: Only one of examples and example_selector should be provided"
  else if examples.isNone && example_selector.isNone then
    Except.error
      "ValueError: One of examples and example_selector should be provided"
  else
    let render := fun (exs : List FlatExample) =>
      let example_strings := exs.map (format_example example_prompt)
      let pieces := [pfx] ++ example_strings ++ [suffix]
      let template := pyJoin example_separator (pieces.filter fun p => !p.isEmpty)
      pyReplace template "\x7binput\x7d" input
    match examples with
    | some exs => Except.ok (render exs, pos)
    | none =>
      match example_selector with
      | some sel =>
        match select_examples sel g pos [("input", input)] with
        | Except.error e => Except.error e
        | Except.ok (exs, pos') => Except.ok (render exs, pos')
      | none =>
        Except.error
          "ValueError: One of examples and example_selector should be provided"

/-- Loop body of `prepare_prompted_inputs` over the batch of inputs.
Faithful details: the `examples` argument handed to the template is
`None if example_selector is None else examples` (the source line-130
conditional, verbatim); under `prefix_every` the separator is augmented
to `example_separator + prefix + example_separator`; an unrecognized
`prompt_format` leaves `few_shot_prompt` unbound
(`UnboundLocalError` at the `format` call); and every formatted prompt
is passed through
`fsp.replace(prefix + example_separator + prefix, prefix).strip()`. -/
def prepare_loop (examples : Option (List FlatExample))
    (example_selector : Option RandomExampleSelector)
    (pfx suffix : String) (example_prompt : ExamplePromptTemplate)
    (example_separator : String) (prompt_format : String)
    (g : Nat → Nat) : Nat → List String → Except String (List String)
  | _, [] => Except.ok []
  | pos, i :: rest =>
    if prompt_format = "prefix_initial" ∨ prompt_format = "prefix_every" then
      let sep' := if prompt_format = "prefix_every" then
          example_separator ++ pfx ++ example_separator
        else example_separator
      let ex_arg := if example_selector.isNone then none else examples
      match few_shot_format ex_arg example_selector example_prompt
          pfx suffix sep' g pos i with
      | Except.error e => Except.error e
      | Except.ok (fsp, pos') =>
        let fsp := pyStrip (pyReplace fsp (pfx ++ example_separator ++ pfx) pfx)
        match prepare_loop examples example_selector pfx suffix example_prompt
            example_separator prompt_format g pos' rest with
        | Except.error e => Except.error e
        | Except.ok tl => Except.ok (fsp :: tl)
    else
      Except.error
        "UnboundLocalError: local variable few_shot_prompt referenced before assignment"

/-- `prepare_prompted_inputs`: guard that at least one of `examples` and
`example_selector` is supplied (`RuntimeError` otherwise), then build
and format one prompt per input. -/
def prepare_prompted_inputs (inputs : List String)
    (examples : Option (List FlatExample))
    (example_selector : Option RandomExampleSelector)
    (pfx suffix : String) (example_prompt : ExamplePromptTemplate)
    (example_separator : String) (prompt_format : String)
    (g : Nat → Nat) (pos : Nat) : Except String (List String) :=
  if examples.isNone && example_selector.isNone then
    Except.error
      "RuntimeError: Expected either examples or a valid example_selector but got None"
  else
    prepare_loop examples example_selector pfx suffix example_prompt
      example_separator prompt_format g pos inputs

/-! ## Postprocessing -/

/-- Postprocessing of one candidate `out_seq` for prompt `inp`
(`postprocess_model_outputs` loop body):
1. `out_seq.replace(inputs[i], '').strip()`;
2. split by `example_separator`, keep the first segment;
3. `re.sub(r'\n', ' ', ...)`;
4. `[x.strip() for x in re.split(r'\d:', ...) if x.strip()][0]` —
   an `IndexError` when every segment strips to empty;
5. `re.sub(r'\s+Simple:\s+', '', ...)` then the same for `Complex:`;
6. final `.strip()`. -/
def postprocess_one (inp example_separator out_seq0 : String) :
    Except String String :=
  let out_seq := pyStrip (pyReplace out_seq0 inp "")
  let split_out_seq := pySplit out_seq example_separator
  let out_seq := pyReplace (split_out_seq.headD "") "\n" " "
  let parts := ((splitDigitColon out_seq).map pyStrip).filter fun x => !x.isEmpty
  match parts with
  | [] => Except.error "IndexError: list index out of range"
  | x :: _ =>
    let out_seq := subLabel "Simple:" x
    let out_seq := subLabel "Complex:" out_seq
    Except.ok (pyStrip out_seq)

/-- Postprocess the whole candidate row of one prompt. -/
def postprocess_row (inp example_separator : String) :
    List String → Except String (List String)
  | [] => Except.ok []
  | o :: rest =>
    match postprocess_one inp example_separator o with
    | Except.error e => Except.error e
    | Except.ok r =>
      match postprocess_row inp example_separator rest with
      | Except.error e => Except.error e
      | Except.ok rs => Except.ok (r :: rs)

/-- Indexed loop of `postprocess_model_outputs` (`inputs[i]` raises an
`IndexError` when `outputs` is longer than `inputs`). -/
def postprocess_aux (inputs : List String) (example_separator : String) :
    Nat → List (List String) → Except String (List (List String))
  | _, [] => Except.ok []
  | idx, row :: rest =>
    match inputs.get? idx with
    | none => Except.error "IndexError: list index out of range"
    | some inp =>
      match postprocess_row inp example_separator row with
      | Except.error e => Except.error e
      | Except.ok r =>
        match postprocess_aux inputs example_separator (idx + 1) rest with
        | Except.error e => Except.error e
        | Except.ok rs => Except.ok (r :: rs)

/-- `postprocess_model_outputs(inputs, outputs, example_separator)`
(the `ref_delimiter` parameter is ignored by the source). -/
def postprocess_model_outputs (inputs : List String)
    (outputs : List (List String)) (example_separator : String) :
    Except String (List (List String)) :=
  postprocess_aux inputs example_separator 0 outputs


/-! ## Decidable equality for Except results -/

/-- Decidable equality on `Except`, used to evaluate the model on
concrete inputs. -/
instance decEqExcept {e a : Type} [DecidableEq e] [DecidableEq a] :
    DecidableEq (Except e a) := fun x y =>
  match x, y with
  | Except.ok u, Except.ok v =>
    if h : u = v then Decidable.isTrue (by rw [h])
    else Decidable.isFalse (by intro hc; cases hc; exact h rfl)
  | Except.ok _, Except.error _ => Decidable.isFalse (by intro hc; cases hc)
  | Except.error _, Except.ok _ => Decidable.isFalse (by intro hc; cases hc)
  | Except.error u, Except.error v =>
    if h : u = v then Decidable.isTrue (by rw [h])
    else Decidable.isFalse (by intro hc; cases hc; exact h rfl)

/-! ## Sampling lemmas -/

/-- Removing the element at index `i` and re-consing it in front is a
permutation of the original list. -/
theorem get_cons_eraseIdx_perm {α : Type} : ∀ (l : List α) (i : Fin l.length),
    List.Perm (l.get i :: l.eraseIdx i.val) l := by
  intro l
  induction l with
  | nil => intro i; exact i.elim0
  | cons a t ih =>
    intro i
    match i with
    | ⟨0, _⟩ => simp [List.eraseIdx]
    | ⟨n + 1, h⟩ =>
      have hn : n < t.length := by simpa using h
      have step1 : List.Perm (t.get ⟨n, hn⟩ :: a :: t.eraseIdx n)
          (a :: t.get ⟨n, hn⟩ :: t.eraseIdx n) := List.Perm.swap a _ _
      have step2 : List.Perm (a :: t.get ⟨n, hn⟩ :: t.eraseIdx n) (a :: t) :=
        (ih ⟨n, hn⟩).cons a
      exact step1.trans step2

/-- `sampleAux` draws exactly `k` elements whenever `k` does not exceed
the population size. -/
theorem sampleAux_length {α : Type} (g : Nat → Nat) :
    ∀ (k pos : Nat) (pop : List α), k ≤ pop.length →
      (sampleAux g pos pop k).length = k := by
  intro k
  induction k with
  | zero => intro pos pop _; rfl
  | succ n ih =>
    intro pos pop h
    have h0 : 0 < pop.length := by omega
    have he := List.length_eraseIdx_add_one (Nat.mod_lt (g pos) h0)
    simp only [sampleAux, dif_pos h0, List.length_cons]
    rw [ih (pos + 1) _ (by omega)]

/-- `sampleAux` draws without replacement: the resulting list is a
sub-permutation of the population (each population slot used at most
once). -/
theorem sampleAux_subperm {α : Type} (g : Nat → Nat) :
    ∀ (k pos : Nat) (pop : List α), List.Subperm (sampleAux g pos pop k) pop := by
  intro k
  induction k with
  | zero => intro pos pop; exact List.nil_subperm
  | succ n ih =>
    intro pos pop
    by_cases h0 : 0 < pop.length
    · simp only [sampleAux, dif_pos h0]
      have hperm := get_cons_eraseIdx_perm pop ⟨g pos % pop.length, Nat.mod_lt _ h0⟩
      exact List.Subperm.trans ((List.subperm_cons _).mpr (ih (pos + 1) _))
        hperm.subperm
    · simp only [sampleAux, dif_neg h0]; exact List.nil_subperm

/-- Flattening preserves the number of exemplars. -/
theorem flatten_references_fst_length (g : Nat → Nat) (n_refs : Nat) :
    ∀ (exs : List Exemplar) (pos : Nat),
      (flatten_references g pos exs n_refs).1.length = exs.length := by
  intro exs
  induction exs with
  | nil => intro pos; rfl
  | cons ex rest ih => intro pos; simp [flatten_references, ih]

/-! ## Claims -/

/-- Claim C1 (counterexample): on prompts `["P1"]`, raw outputs
`[["P1 Simple: Hello world.\n\nComplex: next"]]` (literal
backslash-n text, matching the raw-string separator `r"\n\n"` of the
source), `postprocess_model_outputs` does NOT return
`[["Hello world."]]` as the claim states: after the prompt echo is
removed and the result stripped, the label `Simple:` sits at the very
start of the candidate, and the stripping pattern `\s+Simple:\s+`
requires whitespace on both sides of the label, so it never matches
there. -/
theorem c1_counterexample :
    postprocess_model_outputs ["P1"]
        [["P1 Simple: Hello world.\\n\\nComplex: next"]] "\\n\\n" ≠
      Except.ok [["Hello world."]] := by decide

/-- Claim C1 (amended): the same call returns
`[["Simple: Hello world."]]` — prompt echo removed, the segment after
the first separator occurrence dropped, and the result trimmed, but the
task label `Simple:` survives because the label-stripping regular
expression demands surrounding whitespace and the label is at the start
of the retained text. -/
theorem c1_amended_label_survives :
    postprocess_model_outputs ["P1"]
        [["P1 Simple: Hello world.\\n\\nComplex: next"]] "\\n\\n" =
      Except.ok [["Simple: Hello world."]] := by decide

/-- Claim C2 (code behaviour at the failing input): when neither an
examples list nor a selector is supplied, `prepare_prompted_inputs`
fails fast with the `RuntimeError` configuration error, as the claim
states; but when a materialized (empty) examples list alone is supplied,
the inverted conditional `None if example_selector is None else
examples` (source line 130) passes `examples=None` to the template
together with `example_selector=None`, so the langchain validator raises
`ValueError` instead of the claimed success with `"P\n\nS:X"`. -/
theorem c2_code_behavior :
    prepare_prompted_inputs ["X"] none none "P" "S:\x7binput\x7d"
        ⟨"\x7bsimple\x7d"⟩ "\n\n" "prefix_initial" (fun _ => 0) 0 =
      Except.error
        "RuntimeError: Expected either examples or a valid example_selector but got None" ∧
    prepare_prompted_inputs ["X"] (some []) none "P" "S:\x7binput\x7d"
        ⟨"\x7bsimple\x7d"⟩ "\n\n" "prefix_initial" (fun _ => 0) 0 =
      Except.error
        "ValueError: One of examples and example_selector should be provided" :=
  ⟨by decide, by decide⟩

/-- Claim C3 (counterexample): echo removal is `str.replace`, which
removes EVERY literal occurrence of the prompt, not only the first one:
with prompt `"ab"` and candidate `"ab cd ab ef"` the claimed result
`"cd ab ef"` (later occurrence left in place) is not produced. -/
theorem c3_counterexample :
    postprocess_model_outputs ["ab"] [["ab cd ab ef"]] "\\n\\n" ≠
      Except.ok [["cd ab ef"]] := by decide

/-- Claim C3 (amended): echo removal deletes every literal occurrence
of the full rendered prompt from the candidate and then trims: with
prompt `"ab"` and candidate `"ab xab y ab"` all three occurrences are
removed, leaving `"x y"`. -/
theorem c3_amended_all_occurrences :
    postprocess_model_outputs ["ab"] [["ab xab y ab"]] "\\n\\n" =
      Except.ok [["x y"]] := by decide

/-- Claim C4: assembling input `"X"` under `prefix_every` with prefix
`"P"`, one exemplar rendering to `"E"`, separator `"\n\n"` and suffix
`"S:{input}"` yields exactly `"P\n\nE\n\nP\n\nS:X"`: the duplicated
head `prefix + separator + prefix` produced by the augmented-separator
join is collapsed to a single leading prefix, and the result is
stripped. -/
theorem c4_prefix_every :
    prepare_prompted_inputs ["X"] none
        (some ⟨[⟨"C", Target.single "E"⟩], 1, 1⟩) "P" "S:\x7binput\x7d"
        ⟨"\x7bsimple\x7d"⟩ "\n\n" "prefix_every" (fun _ => 0) 0 =
      Except.ok ["P\n\nE\n\nP\n\nS:X"] := by decide

/-- Claim C5: for every pool and count, if `count ≤ |pool|` then
`select_examples` succeeds, the drawn exemplars are `count` distinct
pool elements (a sub-permutation of the pool, i.e. sampling without
replacement), and the returned flattened list has length `count`; if
`count > |pool|` it fails with the sampling `ValueError`. -/
theorem c5_select_contract (pool : List Exemplar) (k n_refs : Nat)
    (g : Nat → Nat) (pos : Nat) (iv : List (String × String)) :
    (k ≤ pool.length →
      ∃ chosen : List Exemplar, List.Subperm chosen pool ∧ chosen.length = k ∧
        select_examples ⟨pool, k, n_refs⟩ g pos iv =
          Except.ok (flatten_references g (pos + k) chosen n_refs) ∧
        (flatten_references g (pos + k) chosen n_refs).1.length = k) ∧
    (pool.length < k →
      select_examples ⟨pool, k, n_refs⟩ g pos iv =
        Except.error "ValueError: Sample larger than population or is negative") := by
  constructor
  · intro h
    refine ⟨sampleAux g pos pool k, sampleAux_subperm g k pos pool,
      sampleAux_length g k pos pool h, ?_, ?_⟩
    · simp [select_examples, pySample, if_pos h]
    · rw [flatten_references_fst_length, sampleAux_length g k pos pool h]
  · intro h
    simp [select_examples, pySample, if_neg (show ¬ k ≤ pool.length by omega)]

/-- Witness for C5: both branches of the contract instantiated — a
2-exemplar pool sampled with `k = 1`, and a 1-exemplar pool sampled with
`k = 3` raising the sampling error. -/
theorem c5_select_contract_witness :
    (∃ chosen : List Exemplar,
      List.Subperm chosen
          [⟨"c1", Target.single "s1"⟩, ⟨"c2", Target.single "s2"⟩] ∧
        chosen.length = 1 ∧
        select_examples
            ⟨[⟨"c1", Target.single "s1"⟩, ⟨"c2", Target.single "s2"⟩], 1, 1⟩
            (fun _ => 0) 0 [("input", "x")] =
          Except.ok (flatten_references (fun _ => 0) (0 + 1) chosen 1) ∧
        (flatten_references (fun _ => 0) (0 + 1) chosen 1).1.length = 1) ∧
    select_examples ⟨[⟨"c1", Target.single "s1"⟩], 3, 1⟩ (fun _ => 0) 0
        [("input", "x")] =
      Except.error "ValueError: Sample larger than population or is negative" :=
  ⟨(c5_select_contract _ 1 1 (fun _ => 0) 0 _).1 (by decide),
   (c5_select_contract [⟨"c1", Target.single "s1"⟩] 3 1 (fun _ => 0) 0 _).2
     (by decide)⟩

/-- Claim C6: flattening an exemplar whose target is a list of
references with `n_refs > 1` samples `min(n_refs, len)` references
without replacement, prefixes the i-th sampled reference with its
zero-based index and colon-space, and joins them with single spaces;
the source field is copied verbatim. -/
theorem c6_flatten_multi (g : Nat → Nat) (pos : Nat) (src : String)
    (refs : List String) (n_refs : Nat) (h : 1 < n_refs) :
    ∃ sampled : List String, List.Subperm sampled refs ∧
      sampled.length = min n_refs refs.length ∧
      (flatten_references g pos [⟨src, Target.multi refs⟩] n_refs).1 =
        [⟨src, pyJoin " "
          (sampled.enum.map fun p => toString p.1 ++ ": " ++ p.2)⟩] := by
  refine ⟨sampleAux g pos refs (min n_refs refs.length),
    sampleAux_subperm g _ pos refs,
    sampleAux_length g _ pos refs (Nat.min_le_right _ _), ?_⟩
  simp [flatten_references, flatten_one, if_pos h]

/-- Witness for C6: a 10-reference exemplar flattened with `n_refs = 3`
(exactly three indexed segments) and a 2-reference exemplar flattened
with `n_refs = 5` (clamped to 2 indexed segments). -/
theorem c6_flatten_multi_witness :
    (1 : Nat) < 3 ∧
    (∃ sampled : List String,
      List.Subperm sampled
          ["r0", "r1", "r2", "r3", "r4", "r5", "r6", "r7", "r8", "r9"] ∧
      sampled.length =
        min 3 (["r0", "r1", "r2", "r3", "r4", "r5", "r6", "r7", "r8", "r9"] :
          List String).length ∧
      (flatten_references (fun _ => 0) 0
          [⟨"src", Target.multi
            ["r0", "r1", "r2", "r3", "r4", "r5", "r6", "r7", "r8", "r9"]⟩] 3).1 =
        [⟨"src", pyJoin " "
          (sampled.enum.map fun p => toString p.1 ++ ": " ++ p.2)⟩]) ∧
    (∃ sampled : List String, List.Subperm sampled ["a", "b"] ∧
      sampled.length = min 5 (["a", "b"] : List String).length ∧
      (flatten_references (fun _ => 0) 0 [⟨"src", Target.multi ["a", "b"]⟩] 5).1 =
        [⟨"src", pyJoin " "
          (sampled.enum.map fun p => toString p.1 ++ ": " ++ p.2)⟩]) :=
  ⟨by decide, c6_flatten_multi (fun _ => 0) 0 "src" _ 3 (by decide),
    c6_flatten_multi (fun _ => 0) 0 "src" _ 5 (by decide)⟩

/-- Claim C7: flattening an exemplar whose target is a single string
with `n_refs = 1` is the identity on the target, with the source field
copied verbatim. -/
theorem c7_flatten_single_identity (g : Nat → Nat) (pos : Nat)
    (src s : String) :
    flatten_references g pos [⟨src, Target.single s⟩] 1 = ([⟨src, s⟩], pos) :=
  rfl

/-- Claim C8: postprocessing is not total — a candidate equal to its
prompt strips to the empty string, the digit-colon split then yields no
non-empty segment, and indexing the first element of the empty list
raises `IndexError`. -/
theorem c8_postprocess_index_error :
    postprocess_model_outputs ["P1"] [["P1"]] "\\n\\n" =
      Except.error "IndexError: list index out of range" := by decide

/-- Claim C9: the duplicated-prefix collapse
`fsp.replace(prefix + example_separator + prefix, prefix)` is applied
unconditionally after formatting in BOTH layout policies — the per-input
result is always the strip of the global replace-all over the whole
joined prompt — and it rewrites occurrences anywhere in the string, not
only at the head: under `prefix_initial` an occurrence of
`"P\n\nP"` inside a rendered exemplar is collapsed too. -/
theorem c9_collapse_unconditional :
    (∀ (examples : Option (List FlatExample)) (sel : RandomExampleSelector)
        (tmpl : ExamplePromptTemplate) (pfx sfx sep : String)
        (g : Nat → Nat) (pos : Nat) (i : String),
      prepare_prompted_inputs [i] examples (some sel) pfx sfx tmpl sep
          "prefix_initial" g pos =
        (few_shot_format examples (some sel) tmpl pfx sfx sep g pos i).map
          (fun p => [pyStrip (pyReplace p.1 (pfx ++ sep ++ pfx) pfx)])) ∧
    (∀ (examples : Option (List FlatExample)) (sel : RandomExampleSelector)
        (tmpl : ExamplePromptTemplate) (pfx sfx sep : String)
        (g : Nat → Nat) (pos : Nat) (i : String),
      prepare_prompted_inputs [i] examples (some sel) pfx sfx tmpl sep
          "prefix_every" g pos =
        (few_shot_format examples (some sel) tmpl pfx sfx
            (sep ++ pfx ++ sep) g pos i).map
          (fun p => [pyStrip (pyReplace p.1 (pfx ++ sep ++ pfx) pfx)])) ∧
    prepare_prompted_inputs ["X"] none
        (some ⟨[⟨"C", Target.single "A P\n\nP B"⟩], 1, 1⟩) "P"
        "S:\x7binput\x7d" ⟨"\x7bsimple\x7d"⟩ "\n\n" "prefix_initial"
        (fun _ => 0) 0 =
      Except.ok ["P\n\nA P B\n\nS:X"] := by
  refine ⟨?_, ?_, by decide⟩
  · intro examples sel tmpl pfx sfx sep g pos i
    cases hf : few_shot_format examples (some sel) tmpl pfx sfx sep g pos i with
    | error e => simp [prepare_prompted_inputs, prepare_loop, hf, Except.map]
    | ok p => simp [prepare_prompted_inputs, prepare_loop, hf, Except.map]
  · intro examples sel tmpl pfx sfx sep g pos i
    cases hf : few_shot_format examples (some sel) tmpl pfx sfx
        (sep ++ pfx ++ sep) g pos i with
    | error e => simp [prepare_prompted_inputs, prepare_loop, hf, Except.map]
    | ok p => simp [prepare_prompted_inputs, prepare_loop, hf, Except.map]

/-- Claim C10: `select_examples` never reads its `input_variables`
argument — for the same pool, counts and pseudo-random state, any two
input-variable dictionaries give the same flattened exemplar
sequence. -/
theorem c10_select_ignores_input (sel : RandomExampleSelector)
    (g : Nat → Nat) (pos : Nat) (iv1 iv2 : List (String × String)) :
    select_examples sel g pos iv1 = select_examples sel g pos iv2 := rfl

end BLESS
